import Mathlib

/-!
Shallow embedding of `src/backend.py` (gbonez/enhanced-admin-website).

The embedding models the identifier resolver (`extract_id_from_input`), the
per-request Spotify metadata enrichment, the three moderation-store upserts,
and the three HTTP endpoints.  Python strings are Lean `String`s manipulated
through their underlying `List Char`; Python `None` vs a string is
`Option String`; timestamps (`NOW()`) are `Nat` instants supplied by the
environment; database tables are lists of rows keyed by their primary key.
An uncaught Python exception propagating out of a handler is modelled by
`HttpResult.crash` (Flask then produces a non-JSON 500 page).
-/

namespace Backend

/-! ## Python string primitives -/

/-- ASCII alphanumeric test, mirroring the character class `[A-Za-z0-9]` of
`SPOTIFY_ID_RE` (src/backend.py line 45). -/
def isAlnum (c : Char) : Bool :=
  ('A' ≤ c && c ≤ 'Z') || ('a' ≤ c && c ≤ 'z') || ('0' ≤ c && c ≤ '9')

/-- Whitespace characters stripped by Python `str.strip()` (ASCII range). -/
def pyIsSpace (c : Char) : Bool :=
  c == ' ' || c == '\t' || c == '\n' || c == '\x0d' || c == '\x0b' || c == '\x0c'

/-- Remove characters satisfying `p` from both ends of a list
(Python `str.strip` / `str.strip(chars)`). -/
def stripBoth (p : Char → Bool) (l : List Char) : List Char :=
  ((l.dropWhile p).reverse.dropWhile p).reverse

/-- Python `value.strip()` on a string. -/
def pyStrip (s : String) : String :=
  ⟨stripBoth pyIsSpace s.data⟩

/-- Python truthiness of an optional string: `None` and `""` are falsy. -/
def pyTruthy : Option String → Bool
  | none => false
  | some s => !s.data.isEmpty

/-- Python `s.split(sep)` for a one-character separator: splits at every
occurrence, keeping empty pieces; the result is never empty. -/
def pySplit (sep : Char) : List Char → List (List Char)
  | [] => [[]]
  | c :: rest =>
    if c = sep then [] :: pySplit sep rest
    else
      match pySplit sep rest with
      | [] => [[c]]
      | g :: gs => (c :: g) :: gs

/-- Boolean list-prefix test (Python `str.startswith`). -/
def listIsPrefixOf : List Char → List Char → Bool
  | [], _ => true
  | _ :: _, [] => false
  | a :: as, b :: bs => a == b && listIsPrefixOf as bs

/-- Boolean substring test (Python `needle in hay`). -/
def listContainsSub (needle : List Char) : List Char → Bool
  | [] => needle.isEmpty
  | c :: rest => listIsPrefixOf needle (c :: rest) || listContainsSub needle rest

/-- Take exactly `n` characters if they are all alphanumeric, else fail. -/
def takeAlnum : Nat → List Char → Option (List Char)
  | 0, _ => some []
  | _ + 1, [] => none
  | n + 1, c :: rest =>
    if isAlnum c then (takeAlnum n rest).map (c :: ·) else none

/-- Leftmost run of exactly `n` alphanumeric characters in a list, the way
`re.search` finds the leftmost match of `[A-Za-z0-9]{n}` (for `n ≥ 1`). -/
def searchAlnumRun (n : Nat) : List Char → Option (List Char)
  | [] => none
  | c :: rest =>
    match takeAlnum n (c :: rest) with
    | some run => some run
    | none => searchAlnumRun n rest

/-- The first match of `SPOTIFY_ID_RE = re.compile(r"([A-Za-z0-9]{22})")`
in a string, as used via `.search(...)` (src/backend.py line 45). -/
def SPOTIFY_ID_RE_search (s : String) : Option String :=
  (searchAlnumRun 22 s.data).map (⟨·⟩)

/-! ## urlparse model

Model of the parts of `urllib.parse.urlparse` the backend reads (`netloc`
and `path`).  Scheme splitting, `//`-netloc extraction, and the
fragment/query/params splits follow CPython's `urlsplit`/`urlparse`.
Host-validation `ValueError`s (bracketed hosts) are not modelled; the
backend swallows them and falls through to the regex fallback. -/

/-- Characters allowed in a URL scheme after the first letter. -/
def schemeChar (c : Char) : Bool :=
  isAlnum c || c == '+' || c == '-' || c == '.'

/-- Index of the first character satisfying `p`, if any. -/
def findIdx? (p : Char → Bool) : List Char → Option Nat
  | [] => none
  | c :: rest => if p c then some 0 else (findIdx? p rest).map (· + 1)

/-- Index of the last character satisfying `p`, if any. -/
def rfindIdx? (p : Char → Bool) (l : List Char) : Option Nat :=
  (findIdx? p l.reverse).map (fun i => l.length - 1 - i)

/-- Split off a leading `scheme:` if present (CPython `urlsplit`): the text
before the first colon must start with an ASCII letter and consist of scheme
characters; the scheme is lowercased. -/
def splitScheme (l : List Char) : List Char × List Char :=
  match findIdx? (· == ':') l with
  | none => ([], l)
  | some i =>
    if 0 < i ∧ (l.headD ' ').isAlpha ∧ (l.take i).all schemeChar then
      ((l.take i).map Char.toLower, l.drop (i + 1))
    else ([], l)

/-- A character ending the netloc portion of a URL. -/
def netlocEnd (c : Char) : Bool :=
  c == '/' || c == '?' || c == '#'

/-- Split a list at the first occurrence of `sep`; the second component is
`none` when `sep` does not occur. -/
def splitAtFirst (sep : Char) : List Char → List Char × Option (List Char)
  | [] => ([], none)
  | c :: rest =>
    if c = sep then ([], some rest)
    else
      let r := splitAtFirst sep rest
      (c :: r.1, r.2)

/-- CPython `_splitparams` applied when `';'` occurs in the path: the params
start at the first `';'` after the last `'/'` (or the first `';'` overall
when there is no `'/'`). -/
def stripParams (l : List Char) : List Char :=
  if l.contains ';' then
    if l.contains '/' then
      let start := (rfindIdx? (· == '/') l).getD 0
      match findIdx? (· == ';') (l.drop start) with
      | none => l
      | some j => l.take (start + j)
    else
      match findIdx? (· == ';') l with
      | none => l
      | some i => l.take i
  else l

/-- The fields of `urllib.parse.urlparse` read by the backend. -/
structure UrlParts where
  scheme : String
  netloc : String
  path : String
deriving DecidableEq, Repr

/-- Model of `urllib.parse.urlparse` restricted to `scheme`, `netloc` and
`path`. -/
def urlparse (v : String) : UrlParts :=
  let s := splitScheme v.data
  let afterScheme := s.2
  let n :=
    if listIsPrefixOf ['/', '/'] afterScheme then
      let r := afterScheme.drop 2
      (r.takeWhile (fun c => !netlocEnd c), r.dropWhile (fun c => !netlocEnd c))
    else ([], afterScheme)
  let beforeFrag := (splitAtFirst '#' n.2).1
  let beforeQuery := (splitAtFirst '?' beforeFrag).1
  { scheme := ⟨s.1⟩, netloc := ⟨n.1⟩, path := ⟨stripParams beforeQuery⟩ }

/-! ## extract_id_from_input (src/backend.py lines 127-149) -/

/-- The characters of the literal `"spotify:"` tested by
`v.startswith("spotify:")` (line 131). -/
def spotifyPrefixChars : List Char :=
  ['s', 'p', 'o', 't', 'i', 'f', 'y', ':']

/-- The characters of the literal `"spotify"` tested by
`"spotify" in p.netloc` (line 137). -/
def spotifySubChars : List Char :=
  ['s', 'p', 'o', 't', 'i', 'f', 'y']

/-- Final fallback of the resolver (lines 146-149): the first 22-character
alphanumeric run anywhere in the text, else the trimmed text itself. -/
def extract_regex_fallback (v : String) : Option String × Option String :=
  match SPOTIFY_ID_RE_search v with
  | some m => (none, some m)
  | none => (none, some v)

/-- URL branch of the resolver (lines 135-145): when the parsed netloc is
nonempty and contains `"spotify"`, split the slash-stripped path; with two
or more segments return `(segment 0, segment 1 before any "?")`, with one
segment return `(None, segment 0)`.  Otherwise fall through to the regex
fallback. -/
def extract_url_or_regex (v : String) : Option String × Option String :=
  let p := urlparse v
  if !p.netloc.data.isEmpty && listContainsSub spotifySubChars p.netloc.data then
    match pySplit '/' (stripBoth (· == '/') p.path.data) with
    | k :: i :: _ => (some ⟨k⟩, some ⟨(pySplit '?' i).headD []⟩)
    | [i] => (none, some ⟨i⟩)
    | [] => extract_regex_fallback v
  else extract_regex_fallback v

/-- Resolver body after the emptiness check, applied to the stripped text:
the `spotify:` URI branch (lines 131-134) falls through to the URL branch
when fewer than three colon-separated parts exist. -/
def extract_stripped (v : String) : Option String × Option String :=
  if listIsPrefixOf spotifyPrefixChars v.data then
    match pySplit ':' v.data with
    | _ :: p1 :: p2 :: _ => (some ⟨p1⟩, some ⟨p2⟩)
    | _ => extract_url_or_regex v
  else extract_url_or_regex v

/-- `extract_id_from_input(value)` (lines 127-149): `(kind, id)` with Python
`None` as `none`. -/
def extract_id_from_input (value : String) : Option String × Option String :=
  if value.data.isEmpty then (none, none)
  else extract_stripped (pyStrip value)

/-! ## Database model (src/backend.py lines 61-124)

Each table is a list of rows; the primary key is the first field.
`NOW()` is a `Nat` instant supplied by the request environment. -/

/-- A row of `blacklisted_songs`. -/
structure SongRow where
  song_id : String
  song_name : Option String
  artist_id : Option String
  artist_name : Option String
  fixed : Bool
  created_at : Nat
deriving DecidableEq, Repr

/-- A row of `user_playlists`. -/
structure PlaylistRow where
  playlist_id : String
  playlist_name : Option String
  blacklisted : Bool
  updated_at : Nat
deriving DecidableEq, Repr

/-- A row of `whitelisted_profiles`. -/
structure ProfileRow where
  profile_id : String
  added_at : Nat
deriving DecidableEq, Repr

/-- The three tables of the moderation store. -/
structure Db where
  songs : List SongRow
  playlists : List PlaylistRow
  profiles : List ProfileRow
deriving DecidableEq, Repr

/-- Column default of `fixed` in `CREATE TABLE blacklisted_songs`:
`fixed boolean DEFAULT false` (src/backend.py line 69). -/
def blacklisted_songs_fixed_default : Bool := false

/-- Column default of `blacklisted` in `CREATE TABLE user_playlists`:
`blacklisted boolean DEFAULT true` (line 77). -/
def user_playlists_blacklisted_default : Bool := true

/-- Default of the `fixed` keyword parameter in the Python signature
`upsert_blacklisted_song(conn, song_id, ..., fixed=True)` (line 92). -/
def upsert_blacklisted_song_fixed_param_default : Bool := true

/-- A `blacklisted_songs` row inserted relying on the schema's column
defaults for every non-key column (lines 64-71). -/
def song_row_schema_defaults (now : Nat) (sid : String) : SongRow :=
  { song_id := sid, song_name := none, artist_id := none, artist_name := none,
    fixed := blacklisted_songs_fixed_default, created_at := now }

/-- `ensure_tables` (lines 61-90) only issues `CREATE TABLE IF NOT EXISTS`;
in the relational model the tables always exist, so it does not change any
table contents. -/
def ensure_tables (db : Db) : Db := db

/-- SQL `COALESCE` on two nullable strings. -/
def coalesce (a b : Option String) : Option String :=
  match a with
  | some x => some x
  | none => b

/-- Find the row with the given `song_id`. -/
def findSong (sid : String) (t : List SongRow) : Option SongRow :=
  t.find? (fun r => r.song_id == sid)

/-- Find the row with the given `playlist_id`. -/
def findPlaylist (pid : String) (t : List PlaylistRow) : Option PlaylistRow :=
  t.find? (fun r => r.playlist_id == pid)

/-- Find the row with the given `profile_id`. -/
def findProfile (pid : String) (t : List ProfileRow) : Option ProfileRow :=
  t.find? (fun r => r.profile_id == pid)

/-- `upsert_blacklisted_song` (lines 92-103): insert, or on conflict set
`fixed` to the incoming value and `COALESCE` each display field with the
stored one; `created_at` is only set by the insert. -/
def upsert_blacklisted_song (now : Nat) (song_id : String)
    (song_name artist_id artist_name : Option String) (fixed : Bool)
    (t : List SongRow) : List SongRow :=
  if (findSong song_id t).isSome then
    t.map (fun r =>
      if r.song_id == song_id then
        { r with fixed := fixed,
                 song_name := coalesce song_name r.song_name,
                 artist_id := coalesce artist_id r.artist_id,
                 artist_name := coalesce artist_name r.artist_name }
      else r)
  else
    t ++ [{ song_id := song_id, song_name := song_name, artist_id := artist_id,
            artist_name := artist_name, fixed := fixed, created_at := now }]

/-- `upsert_user_playlist_blacklist` (lines 105-115): insert, or on conflict
`COALESCE` the name, overwrite `blacklisted`, and refresh `updated_at`. -/
def upsert_user_playlist_blacklist (now : Nat) (playlist_id : String)
    (playlist_name : Option String) (blacklisted : Bool)
    (t : List PlaylistRow) : List PlaylistRow :=
  if (findPlaylist playlist_id t).isSome then
    t.map (fun r =>
      if r.playlist_id == playlist_id then
        { r with playlist_name := coalesce playlist_name r.playlist_name,
                 blacklisted := blacklisted,
                 updated_at := now }
      else r)
  else
    t ++ [{ playlist_id := playlist_id, playlist_name := playlist_name,
            blacklisted := blacklisted, updated_at := now }]

/-- `upsert_whitelisted_profile` (lines 117-124): insert, `ON CONFLICT DO
NOTHING`. -/
def upsert_whitelisted_profile (now : Nat) (profile_id : String)
    (t : List ProfileRow) : List ProfileRow :=
  if (findProfile profile_id t).isSome then t
  else t ++ [{ profile_id := profile_id, added_at := now }]

/-! ## Request environment and Spotify client -/

/-- The pieces of a Spotify artist object read by the backend. -/
structure ArtistInfo where
  id : Option String
  name : Option String
deriving DecidableEq, Repr

/-- The pieces of a `_sp.track(...)` result read by the backend. -/
structure TrackInfo where
  name : Option String
  artists : List ArtistInfo
deriving DecidableEq, Repr

/-- The pieces of a `_sp.playlist(...)` result read by the backend:
`p.get("name")` and `(p.get("owner") or {}).get("id")`. -/
structure PlaylistInfo where
  name : Option String
  owner_id : Option String
deriving DecidableEq, Repr

/-- A live Spotify client; a lookup returning `none` models a per-call
exception, which every call site catches and treats as absent metadata. -/
structure SpClient where
  track : String → Option TrackInfo
  playlist : String → Option PlaylistInfo

/-- Per-request environment: the process-wide `_sp` handle (`none` when
construction failed at startup), whether `get_db_conn()` yields a
connection, whether the schema-ensure/write step raises (with its `str(e)`
text), and the wall-clock instant used for `NOW()`. -/
structure Env where
  sp : Option SpClient
  connAvailable : Bool
  writeOk : Bool
  writeErr : String
  now : Nat

/-- A JSON HTTP response produced by a handler. -/
structure Resp where
  status : Nat
  ok : Bool
  msg : Option String
  error : Option String
deriving DecidableEq, Repr

/-- Response `jsonify({"ok": False, "error": e}), status`. -/
def errResp (status : Nat) (e : String) : Resp :=
  { status := status, ok := false, msg := none, error := some e }

/-- Response `jsonify({"ok": True, "msg": m}), 200`. -/
def okResp (m : String) : Resp :=
  { status := 200, ok := true, msg := some m, error := none }

/-- Outcome of a request: a JSON response, or an uncaught Python exception
escaping the handler (Flask then renders a generic 500 page). -/
inductive HttpResult where
  | resp : Resp → HttpResult
  | crash : String → HttpResult
deriving DecidableEq, Repr

/-- The message of the `TypeError` raised by `re.Pattern.search(None)`. -/
def typeErrorMsg : String :=
  "TypeError: expected string or bytes-like object, got NoneType"

/-- String rendering of a Python bool inside an f-string. -/
def pyBoolRepr (b : Bool) : String :=
  if b then "True" else "False"

/-! ## HTTP endpoint models (src/backend.py lines 157-261) -/

/-- The kind-mismatch correction shared by the two blacklist endpoints
(lines 163-165 and 203-205): when the resolved kind is truthy and differs
from the endpoint's expected kind, re-search the resolved id for the
22-character pattern and use the match if found.  Searching a `None` id
raises `TypeError`. -/
def kind_mismatch_correct (expected : String) (kind id_or_raw : Option String) :
    Except String (Option String) :=
  if pyTruthy kind = true ∧ kind ≠ some expected then
    match id_or_raw with
    | none => .error typeErrorMsg
    | some s =>
      match SPOTIFY_ID_RE_search s with
      | some m => .ok (some m)
      | none => .ok id_or_raw
  else .ok id_or_raw

/-- Lines 159-165 of `api_blacklist_track`: default the `input` field to
`""`, strip, resolve, and apply the kind-mismatch correction for `"track"`. -/
def resolved_track_id (input_field : Option String) : Except String (Option String) :=
  let val := pyStrip (input_field.getD "")
  let r := extract_id_from_input val
  kind_mismatch_correct "track" r.1 r.2

/-- Lines 198-205 of `api_blacklist_playlist`: same resolution with expected
kind `"playlist"`. -/
def resolved_playlist_id (input_field : Option String) : Except String (Option String) :=
  let val := pyStrip (input_field.getD "")
  let r := extract_id_from_input val
  kind_mismatch_correct "playlist" r.1 r.2

/-- Lines 169-181 of `api_blacklist_track`: best-effort track enrichment,
yielding `(song_name, artist_id, artist_name)`; any failure leaves all three
`None`. -/
def track_enrich (sp : Option SpClient) (tid : String) :
    Option String × Option String × Option String :=
  match sp with
  | none => (none, none, none)
  | some c =>
    match c.track tid with
    | none => (none, none, none)
    | some t =>
      match t.artists with
      | [] => (t.name, none, none)
      | a :: _ => (t.name, a.id, a.name)

/-- `api_blacklist_track` (lines 157-193). -/
def api_blacklist_track (env : Env) (input_field : Option String) (db : Db) :
    HttpResult × Db :=
  match resolved_track_id input_field with
  | .error e => (.crash e, db)
  | .ok track_id =>
    if pyTruthy track_id = false then
      (.resp (errResp 400 "Could not parse track id"), db)
    else
      let tid := track_id.getD ""
      let meta := track_enrich env.sp tid
      if env.connAvailable = false then
        (.resp (errResp 500 "DB unavailable"), db)
      else
        let db1 := ensure_tables db
        if env.writeOk = false then
          (.resp (errResp 500 env.writeErr), db1)
        else
          (.resp (okResp ("Blacklisted track " ++ tid ++ " (fixed=true)")),
           { db1 with songs := upsert_blacklisted_song env.now tid meta.1 meta.2.1 meta.2.2 true db1.songs })

/-- `api_blacklist_playlist` (lines 195-227); `blacklisted_field` is the
optional JSON `blacklisted` value, defaulted to `True`. -/
def api_blacklist_playlist (env : Env) (input_field : Option String)
    (blacklisted_field : Option Bool) (db : Db) : HttpResult × Db :=
  let flag := blacklisted_field.getD true
  match resolved_playlist_id input_field with
  | .error e => (.crash e, db)
  | .ok playlist_id =>
    if pyTruthy playlist_id = false then
      (.resp (errResp 400 "Could not parse playlist id"), db)
    else
      let pid := playlist_id.getD ""
      let pname :=
        match env.sp with
        | none => none
        | some c =>
          match c.playlist pid with
          | none => none
          | some p => p.name
      if env.connAvailable = false then
        (.resp (errResp 500 "DB unavailable"), db)
      else
        let db1 := ensure_tables db
        if env.writeOk = false then
          (.resp (errResp 500 env.writeErr), db1)
        else
          (.resp (okResp ("Playlist " ++ pid ++ " upserted with blacklisted=" ++ pyBoolRepr flag)),
           { db1 with playlists := upsert_user_playlist_blacklist env.now pid pname flag db1.playlists })

/-- Lines 231-246 of `api_whitelist_profile`: resolve the input (twice, as
the source does), and when the resolved kind is `"playlist"` — or the kind
is falsy and the resolved id contains the 22-character pattern — redirect
the candidate to the playlist's owner id when the enricher yields a truthy
one.  Evaluating the redirect condition on an empty input searches a `None`
candidate and raises `TypeError`. -/
def whitelist_candidate (sp : Option SpClient) (input_field : Option String) :
    Except String (Option String) :=
  let val := pyStrip (input_field.getD "")
  let r := extract_id_from_input val
  let candidate0 := r.2
  let r2 := extract_id_from_input val
  let maybe_kind := r2.1
  let maybe_id := r2.2
  let condE : Except String Bool :=
    if maybe_kind = some "playlist" then .ok true
    else if pyTruthy maybe_kind = false then
      match candidate0 with
      | none => .error typeErrorMsg
      | some s => .ok (SPOTIFY_ID_RE_search s).isSome
    else .ok false
  match condE with
  | .error e => .error e
  | .ok cond =>
    if cond then
      match sp with
      | none => .ok candidate0
      | some c =>
        match c.playlist (maybe_id.getD "") with
        | none => .ok candidate0
        | some plist =>
          match plist.owner_id with
          | none => .ok candidate0
          | some oid => .ok (if oid = "" then candidate0 else some oid)
    else .ok candidate0

/-- `api_whitelist_profile` (lines 229-261). -/
def api_whitelist_profile (env : Env) (input_field : Option String) (db : Db) :
    HttpResult × Db :=
  match whitelist_candidate env.sp input_field with
  | .error e => (.crash e, db)
  | .ok candidate =>
    if pyTruthy candidate = false then
      (.resp (errResp 400 "Could not parse profile or playlist owner id"), db)
    else
      let pid := candidate.getD ""
      if env.connAvailable = false then
        (.resp (errResp 500 "DB unavailable"), db)
      else
        let db1 := ensure_tables db
        if env.writeOk = false then
          (.resp (errResp 500 env.writeErr), db1)
        else
          (.resp (okResp ("Whitelisted profile " ++ pid)),
           { db1 with profiles := upsert_whitelisted_profile env.now pid db1.profiles })

/-! ## Store lemmas -/

/-- Mapping an update that preserves the key commutes with keyed lookup. -/
lemma find?_map_key {α : Type} (key : α → String) (upd : α → α)
    (hupd : ∀ x, key (upd x) = key x) (k : String) (l : List α) :
    (l.map (fun x => if key x == k then upd x else x)).find? (fun x => key x == k)
      = (l.find? (fun x => key x == k)).map upd := by
  induction l with
  | nil => rfl
  | cons a t ih =>
    simp only [List.map_cons]
    by_cases h : (key a == k) = true
    · rw [if_pos h,
        List.find?_cons_of_pos (p := fun x => key x == k) (a := upd a) _
          (show (key (upd a) == k) = true by rw [hupd a]; exact h),
        List.find?_cons_of_pos (p := fun x => key x == k) (a := a) _ h,
        Option.map_some']
    · rw [if_neg h,
        List.find?_cons_of_neg (p := fun x => key x == k) (a := a) _ h,
        List.find?_cons_of_neg (p := fun x => key x == k) (a := a) _ h, ih]

/-- Lookup skips a block with no match. -/
lemma find?_append_of_none {α : Type} (p : α → Bool) (l₁ l₂ : List α)
    (h : l₁.find? p = none) : (l₁ ++ l₂).find? p = l₂.find? p := by
  rw [List.find?_append, h]
  rfl

/-- Closed form of a song lookup after a song upsert on the same key. -/
lemma findSong_upsert (now : Nat) (sid : String) (n a an : Option String)
    (f : Bool) (t : List SongRow) :
    findSong sid (upsert_blacklisted_song now sid n a an f t)
      = some (match findSong sid t with
          | some r =>
            { r with fixed := f, song_name := coalesce n r.song_name,
                     artist_id := coalesce a r.artist_id,
                     artist_name := coalesce an r.artist_name }
          | none =>
            { song_id := sid, song_name := n, artist_id := a,
              artist_name := an, fixed := f, created_at := now }) := by
  unfold upsert_blacklisted_song findSong
  cases h : List.find? (fun r => r.song_id == sid) t with
  | some r =>
    rw [if_pos (show ((some r).isSome = true) from rfl),
      find?_map_key (fun x : SongRow => x.song_id)
        (fun x => { song_id := x.song_id, song_name := coalesce n x.song_name,
                    artist_id := coalesce a x.artist_id,
                    artist_name := coalesce an x.artist_name, fixed := f,
                    created_at := x.created_at })
        (fun _ => rfl) sid t, h]
    rfl
  | none =>
    rw [if_neg (by simp), find?_append_of_none _ _ _ h]
    simp

/-- Closed form of a playlist lookup after a playlist upsert on the same
key. -/
lemma findPlaylist_upsert (now : Nat) (pid : String) (n : Option String)
    (b : Bool) (t : List PlaylistRow) :
    findPlaylist pid (upsert_user_playlist_blacklist now pid n b t)
      = some (match findPlaylist pid t with
          | some r =>
            { r with playlist_name := coalesce n r.playlist_name,
                     blacklisted := b, updated_at := now }
          | none =>
            { playlist_id := pid, playlist_name := n, blacklisted := b,
              updated_at := now }) := by
  unfold upsert_user_playlist_blacklist findPlaylist
  cases h : List.find? (fun r => r.playlist_id == pid) t with
  | some r =>
    rw [if_pos (show ((some r).isSome = true) from rfl),
      find?_map_key (fun x : PlaylistRow => x.playlist_id)
        (fun x => { playlist_id := x.playlist_id,
                    playlist_name := coalesce n x.playlist_name,
                    blacklisted := b, updated_at := now })
        (fun _ => rfl) pid t, h]
    rfl
  | none =>
    rw [if_neg (by simp), find?_append_of_none _ _ _ h]
    simp

/-- After a profile upsert, the key is present. -/
lemma findProfile_upsert_isSome (now : Nat) (pid : String) (t : List ProfileRow) :
    (findProfile pid (upsert_whitelisted_profile now pid t)).isSome = true := by
  unfold upsert_whitelisted_profile findProfile
  cases h : List.find? (fun r => r.profile_id == pid) t with
  | some r => rw [if_pos (show ((some r).isSome = true) from rfl), h]; rfl
  | none =>
    rw [if_neg (by simp), find?_append_of_none _ _ _ h]
    simp

/-- Re-whitelisting a key already whitelisted leaves the table unchanged. -/
lemma upsert_whitelisted_profile_idem (now1 now2 : Nat) (pid : String)
    (t : List ProfileRow) :
    upsert_whitelisted_profile now2 pid (upsert_whitelisted_profile now1 pid t)
      = upsert_whitelisted_profile now1 pid t := by
  have h := findProfile_upsert_isSome now1 pid t
  generalize hu : upsert_whitelisted_profile now1 pid t = u at h ⊢
  rw [show upsert_whitelisted_profile now2 pid u
        = if (findProfile pid u).isSome then u
          else u ++ [{ profile_id := pid, added_at := now2 }] from rfl,
      if_pos h]

/-! ## String lemmas -/

/-- An alphanumeric character is not Python whitespace. -/
lemma alnum_not_space (c : Char) (h : isAlnum c = true) : pyIsSpace c = false := by
  cases hb : pyIsSpace c
  · rfl
  · exfalso
    unfold pyIsSpace at hb
    simp only [Bool.or_eq_true, beq_iff_eq] at hb
    rcases hb with ((((h1 | h1) | h1) | h1) | h1) | h1 <;> subst h1 <;>
      exact absurd h (by decide)

/-- An alphanumeric character is not a colon. -/
lemma alnum_ne_colon (c : Char) (h : isAlnum c = true) : c ≠ ':' := by
  intro e
  subst e
  exact absurd h (by decide)

/-- Stripping is the identity when neither end satisfies the predicate. -/
lemma stripBoth_eq_self (p : Char → Bool) (l : List Char)
    (hh : ∀ c, l.head? = some c → p c = false)
    (hl : ∀ c, l.getLast? = some c → p c = false) :
    stripBoth p l = l := by
  unfold stripBoth
  have h1 : l.dropWhile p = l := by
    cases l with
    | nil => rfl
    | cons c t =>
      rw [List.dropWhile_cons, hh c rfl]
      simp
  rw [h1]
  have h2 : l.reverse.dropWhile p = l.reverse := by
    cases hr : l.reverse with
    | nil => rfl
    | cons c t =>
      have hcl : l.getLast? = some c := by
        rw [← List.head?_reverse, hr]
        rfl
      rw [List.dropWhile_cons, hl c hcl]
      simp
  rw [h2, List.reverse_reverse]

/-- A list is a Boolean prefix of itself followed by anything. -/
lemma listIsPrefixOf_append_self (l t : List Char) :
    listIsPrefixOf l (l ++ t) = true := by
  induction l with
  | nil => rfl
  | cons c rest ih => simp [listIsPrefixOf, ih]

/-- Splitting a list without the separator yields the single piece. -/
lemma pySplit_of_not_mem (sep : Char) (l : List Char) (h : sep ∉ l) :
    pySplit sep l = [l] := by
  induction l with
  | nil => rfl
  | cons c rest ih =>
    rw [List.mem_cons, not_or] at h
    rw [show pySplit sep (c :: rest)
          = if c = sep then [] :: pySplit sep rest
            else match pySplit sep rest with
              | [] => [[c]]
              | g :: gs => (c :: g) :: gs from rfl,
        if_neg (fun e => h.1 e.symm), ih h.2]

/-- Splitting peels off a separator-free block before a separator. -/
lemma pySplit_append_sep (sep : Char) (a rest : List Char) (h : sep ∉ a) :
    pySplit sep (a ++ sep :: rest) = a :: pySplit sep rest := by
  induction a with
  | nil =>
    rw [List.nil_append,
        show pySplit sep (sep :: rest) = if sep = sep then [] :: pySplit sep rest
          else match pySplit sep rest with
            | [] => [[sep]]
            | g :: gs => (sep :: g) :: gs from rfl,
        if_pos rfl]
  | cons c t ih =>
    rw [List.mem_cons, not_or] at h
    rw [List.cons_append,
        show pySplit sep (c :: (t ++ sep :: rest))
          = if c = sep then [] :: pySplit sep (t ++ sep :: rest)
            else match pySplit sep (t ++ sep :: rest) with
              | [] => [[c]]
              | g :: gs => (c :: g) :: gs from rfl,
        if_neg (fun e => h.1 e.symm), ih h.2]

/-- A nonempty string is Python-truthy. -/
lemma pyTruthy_some_of_ne (s : String) (h : s ≠ "") : pyTruthy (some s) = true := by
  cases s with
  | mk l =>
    cases l with
    | nil => exact absurd rfl h
    | cons c t => rfl

/-- A string with empty character data is the empty string. -/
lemma string_eq_empty_of_isEmpty (s : String) (h : s.data.isEmpty = true) :
    s = "" := by
  cases s with
  | mk l =>
    cases l with
    | nil => rfl
    | cons c t => simp at h

/-- A falsy optional string is not a nonempty string. -/
lemma pyTruthy_false_ne (k : Option String) (h : pyTruthy k = false)
    (s : String) (hs : s ≠ "") : k ≠ some s := by
  intro e
  subst e
  unfold pyTruthy at h
  rw [Bool.not_eq_false'] at h
  exact hs (string_eq_empty_of_isEmpty s h)

/-! ## Claim C2: the URI branch of the resolver -/

/-- C2 amended: for inputs shaped `spotify:kind:id` — the scheme must be the
literal `spotify`, not an arbitrary scheme — with a colon-free kind token
and a 22-character alphanumeric id, the resolver returns exactly
`(kind, id)` (segment 1 and segment 2). -/
theorem c2_spotify_uri_resolves (kind id : List Char)
    (hk : ':' ∉ kind) (hlen : id.length = 22)
    (hal : ∀ c ∈ id, isAlnum c = true) :
    extract_id_from_input ⟨spotifyPrefixChars ++ kind ++ ':' :: id⟩
      = (some ⟨kind⟩, some ⟨id⟩) := by
  have hid : id ≠ [] := by
    intro e
    rw [e] at hlen
    exact absurd hlen (by decide)
  have hnosep : ':' ∉ id := fun hm => absurd (hal ':' hm) (by decide)
  have hstrip : pyStrip ⟨spotifyPrefixChars ++ kind ++ ':' :: id⟩
      = ⟨spotifyPrefixChars ++ kind ++ ':' :: id⟩ := by
    unfold pyStrip
    rw [show (String.mk (spotifyPrefixChars ++ kind ++ ':' :: id)).data
          = spotifyPrefixChars ++ kind ++ ':' :: id from rfl]
    rw [stripBoth_eq_self]
    · intro c hc
      rw [show (spotifyPrefixChars ++ kind ++ ':' :: id).head? = some 's' from rfl]
        at hc
      cases hc
      decide
    · intro c hc
      rw [show spotifyPrefixChars ++ kind ++ ':' :: id
            = (spotifyPrefixChars ++ kind ++ [':']) ++ id by simp,
          List.getLast?_append_of_ne_nil _ hid] at hc
      exact alnum_not_space c (hal c (List.mem_of_getLast?_eq_some hc))
  rw [show extract_id_from_input ⟨spotifyPrefixChars ++ kind ++ ':' :: id⟩
        = extract_stripped (pyStrip ⟨spotifyPrefixChars ++ kind ++ ':' :: id⟩)
        from rfl,
      hstrip]
  unfold extract_stripped
  rw [show (String.mk (spotifyPrefixChars ++ kind ++ ':' :: id)).data
        = spotifyPrefixChars ++ kind ++ ':' :: id from rfl,
      List.append_assoc,
      listIsPrefixOf_append_self spotifyPrefixChars (kind ++ ':' :: id),
      if_pos rfl,
      show spotifyPrefixChars ++ (kind ++ ':' :: id)
        = spotifySubChars ++ ':' :: (kind ++ ':' :: id) from rfl,
      pySplit_append_sep ':' spotifySubChars _ (by decide),
      pySplit_append_sep ':' kind _ hk,
      pySplit_of_not_mem ':' id hnosep]

/-- Witness for C2 on a concrete `spotify:track:<22-char id>` input. -/
theorem c2_spotify_uri_resolves_witness :
    extract_id_from_input
        ⟨spotifyPrefixChars ++ "track".data ++ ':' :: "AAAAAAAAAAAAAAAAAAAAAA".data⟩
      = (some "track", some "AAAAAAAAAAAAAAAAAAAAAA")
    ∧ String.mk (spotifyPrefixChars ++ "track".data ++ ':' :: "AAAAAAAAAAAAAAAAAAAAAA".data)
      = "spotify:track:AAAAAAAAAAAAAAAAAAAAAA" :=
  ⟨c2_spotify_uri_resolves "track".data "AAAAAAAAAAAAAAAAAAAAAA".data
    (by decide) (by decide) (by decide), by decide⟩

/-! ## Concrete environments used by closed theorems -/

/-- The empty store. -/
def db0 : Db := { songs := [], playlists := [], profiles := [] }

/-- Environment with no Spotify client and no database connection. -/
def envNoDb : Env :=
  { sp := none, connAvailable := false, writeOk := true, writeErr := "", now := 0 }

/-- Environment with no Spotify client and a working database. -/
def envPlain : Env :=
  { sp := none, connAvailable := true, writeOk := true, writeErr := "", now := 7 }

/-! ## Claim theorems -/

/-- C1 (code_bug evidence): with the `input` field `""`, blacklist_track and
blacklist_playlist return HTTP 400 with `ok:false` and write nothing, but
whitelist_profile evaluates `SPOTIFY_ID_RE.search(None)` (line 237) and the
resulting uncaught `TypeError` escapes the handler as an HTTP 500, for every
environment — contradicting the claim that all three endpoints yield 400. -/
theorem c1_empty_input_responses (env : Env) (db : Db) (b : Option Bool) :
    api_blacklist_track env (some "") db
      = (.resp (errResp 400 "Could not parse track id"), db)
    ∧ api_blacklist_playlist env (some "") b db
      = (.resp (errResp 400 "Could not parse playlist id"), db)
    ∧ api_whitelist_profile env (some "") db = (.crash typeErrorMsg, db) :=
  ⟨rfl, rfl, rfl⟩

/-- C3: upserting a blacklisted song with all-null metadata after an upsert
that stored non-null `song_name`, `artist_id` and `artist_name` leaves all
three stored values unchanged (the `COALESCE` merge never overwrites a
non-null stored value with null). -/
theorem c3_null_never_overwrites_metadata (t : List SongRow) (now1 now2 : Nat)
    (sid x y z : String) (f1 f2 : Bool) :
    ∃ r, findSong sid (upsert_blacklisted_song now2 sid none none none f2
            (upsert_blacklisted_song now1 sid (some x) (some y) (some z) f1 t))
          = some r
      ∧ r.song_name = some x ∧ r.artist_id = some y ∧ r.artist_name = some z := by
  simp only [findSong_upsert]
  cases findSong sid t
  · exact ⟨_, rfl, rfl, rfl, rfl⟩
  · exact ⟨_, rfl, rfl, rfl, rfl⟩

/-- C4: upserting a playlist with `blacklisted=true` and then
`blacklisted=false` leaves the stored flag `false` (the flag is always
overwritten), and `updated_at` strictly increases when the second write
happens at a strictly later instant. -/
theorem c4_flag_last_writer_wins (t : List PlaylistRow) (now1 now2 : Nat)
    (pid : String) (n1 n2 : Option String) (h : now1 < now2) :
    ∃ r1 r2,
      findPlaylist pid (upsert_user_playlist_blacklist now1 pid n1 true t) = some r1
      ∧ findPlaylist pid (upsert_user_playlist_blacklist now2 pid n2 false
          (upsert_user_playlist_blacklist now1 pid n1 true t)) = some r2
      ∧ r1.blacklisted = true ∧ r2.blacklisted = false
      ∧ r1.updated_at < r2.updated_at := by
  simp only [findPlaylist_upsert]
  cases findPlaylist pid t
  · exact ⟨_, _, rfl, rfl, rfl, rfl, h⟩
  · exact ⟨_, _, rfl, rfl, rfl, rfl, h⟩

/-- Witness for C4 at a concrete instant pair. -/
theorem c4_flag_last_writer_wins_witness :
    ∃ r1 r2,
      findPlaylist "P" (upsert_user_playlist_blacklist 1 "P" none true []) = some r1
      ∧ findPlaylist "P" (upsert_user_playlist_blacklist 2 "P" none false
          (upsert_user_playlist_blacklist 1 "P" none true [])) = some r2
      ∧ r1.blacklisted = true ∧ r2.blacklisted = false
      ∧ r1.updated_at < r2.updated_at :=
  c4_flag_last_writer_wins [] 1 2 "P" none none (by decide)

/-- C6: `created_at` is set by the first insert of a song and unchanged by a
later upsert of the same key, and re-whitelisting an existing profile key is
a no-op on the whole table. -/
theorem c6_first_insert_timestamps (songs : List SongRow)
    (profiles : List ProfileRow) (now1 now2 : Nat) (sid pid : String)
    (n a an n2 a2 an2 : Option String) (f f2 : Bool)
    (hfresh : findSong sid songs = none) :
    (∃ r r', findSong sid (upsert_blacklisted_song now1 sid n a an f songs) = some r
      ∧ r.created_at = now1
      ∧ findSong sid (upsert_blacklisted_song now2 sid n2 a2 an2 f2
          (upsert_blacklisted_song now1 sid n a an f songs)) = some r'
      ∧ r'.created_at = now1)
    ∧ upsert_whitelisted_profile now2 pid (upsert_whitelisted_profile now1 pid profiles)
        = upsert_whitelisted_profile now1 pid profiles := by
  refine ⟨?_, upsert_whitelisted_profile_idem now1 now2 pid profiles⟩
  simp only [findSong_upsert, hfresh]
  exact ⟨_, _, rfl, rfl, rfl, rfl⟩

/-- Witness for C6 on the empty store. -/
theorem c6_first_insert_timestamps_witness :
    (∃ r r', findSong "S" (upsert_blacklisted_song 3 "S" none none none true []) = some r
      ∧ r.created_at = 3
      ∧ findSong "S" (upsert_blacklisted_song 9 "S" (some "nm") none none false
          (upsert_blacklisted_song 3 "S" none none none true [])) = some r'
      ∧ r'.created_at = 3)
    ∧ upsert_whitelisted_profile 9 "Q" (upsert_whitelisted_profile 3 "Q" [])
        = upsert_whitelisted_profile 3 "Q" [] :=
  c6_first_insert_timestamps [] [] 3 9 "S" "Q" none none none (some "nm") none none
    true false (by decide)

/-- C7 counterexample: the schema default of `fixed` in
`CREATE TABLE blacklisted_songs` is `false`, so a row inserted without an
explicit `fixed` value has `fixed = false`, refuting the claimed default of
`true`. -/
theorem c7_counterexample :
    (song_row_schema_defaults 0 "X").fixed = false
    ∧ ¬ blacklisted_songs_fixed_default = true := by
  exact ⟨rfl, by decide⟩

/-- C7 amended: the `fixed` column default in the schema is `false`; it is
the Python `upsert_blacklisted_song` helper whose `fixed` parameter defaults
to `true`. -/
theorem c7_fixed_defaults (now : Nat) (sid : String) :
    (song_row_schema_defaults now sid).fixed = false
    ∧ blacklisted_songs_fixed_default = false
    ∧ upsert_blacklisted_song_fixed_param_default = true :=
  ⟨rfl, rfl, rfl⟩

/-- C2 counterexample: for the scheme `x` (not `spotify`), an input shaped
`scheme:kind:id22` does not resolve to `(kind, id22)` — the resolver's URI
branch fires only on the literal prefix `spotify:`, and this input falls to
the bare-ID regex, returning a null kind. -/
theorem c2_counterexample :
    extract_id_from_input "x:track:AAAAAAAAAAAAAAAAAAAAAA"
        = (none, some "AAAAAAAAAAAAAAAAAAAAAA")
    ∧ extract_id_from_input "x:track:AAAAAAAAAAAAAAAAAAAAAA"
        ≠ (some "track", some "AAAAAAAAAAAAAAAAAAAAAA") := by
  exact ⟨by decide, by decide⟩

/-- C5 counterexample: on input `spotify::bbbbAAAAAAAAAAAAAAAAAAAAAA` the
resolved kind is `some ""` — non-null and different from `"track"` — and the
22-character pattern does match inside the resolved id, yet the correction
pass is skipped (Python `if kind` is false for `""`), so the id used for the
write stays the full 26-character string rather than the matched token. -/
theorem c5_counterexample :
    extract_id_from_input (pyStrip "spotify::bbbbAAAAAAAAAAAAAAAAAAAAAA")
        = (some "", some "bbbbAAAAAAAAAAAAAAAAAAAAAA")
    ∧ (some "" : Option String) ≠ none
    ∧ (some "" : Option String) ≠ some "track"
    ∧ SPOTIFY_ID_RE_search "bbbbAAAAAAAAAAAAAAAAAAAAAA"
        = some "bbbbAAAAAAAAAAAAAAAAAA"
    ∧ resolved_track_id (some "spotify::bbbbAAAAAAAAAAAAAAAAAAAAAA")
        = .ok (some "bbbbAAAAAAAAAAAAAAAAAAAAAA")
    ∧ (some "bbbbAAAAAAAAAAAAAAAAAAAAAA" : Option String)
        ≠ some "bbbbAAAAAAAAAAAAAAAAAA" := by
  refine ⟨by decide, by decide, by decide, by decide, by rfl, by decide⟩

/-- The mismatch branch of the correction: search the id, keep it when the
pattern is absent. -/
lemma kind_mismatch_correct_mismatch (expected : String) (kind : Option String)
    (s : String) (ht : pyTruthy kind = true) (hne : kind ≠ some expected) :
    kind_mismatch_correct expected kind (some s)
      = .ok (some ((SPOTIFY_ID_RE_search s).getD s)) := by
  unfold kind_mismatch_correct
  rw [if_pos ⟨ht, hne⟩]
  dsimp only
  cases h : SPOTIFY_ID_RE_search s <;> rfl

/-- C5 amended: in both blacklist endpoints, whenever the resolved kind is
truthy (non-null **and** non-empty; Python `if kind` skips the empty-string
kind) and differs from the endpoint's expected kind, the id used for the
write is the first 22-character alphanumeric token found in the resolved id
string, or the resolved id unchanged when no token is found. -/
theorem c5_kind_mismatch_second_pass (input : String) (kind : Option String)
    (s : String)
    (hres : extract_id_from_input (pyStrip input) = (kind, some s))
    (ht : pyTruthy kind = true) :
    (kind ≠ some "track" →
      resolved_track_id (some input) = .ok (some ((SPOTIFY_ID_RE_search s).getD s)))
    ∧ (kind ≠ some "playlist" →
      resolved_playlist_id (some input)
        = .ok (some ((SPOTIFY_ID_RE_search s).getD s))) := by
  constructor
  · intro hne
    unfold resolved_track_id
    simp only [Option.getD_some]
    rw [hres]
    exact kind_mismatch_correct_mismatch "track" kind s ht hne
  · intro hne
    unfold resolved_playlist_id
    simp only [Option.getD_some]
    rw [hres]
    exact kind_mismatch_correct_mismatch "playlist" kind s ht hne

/-- Witness for C5 on a `spotify:album:<22-char id>` input, whose kind
`album` mismatches both endpoints. -/
theorem c5_kind_mismatch_second_pass_witness :
    resolved_track_id (some "spotify:album:AAAAAAAAAAAAAAAAAAAAAA")
        = .ok (some "AAAAAAAAAAAAAAAAAAAAAA")
    ∧ resolved_playlist_id (some "spotify:album:AAAAAAAAAAAAAAAAAAAAAA")
        = .ok (some "AAAAAAAAAAAAAAAAAAAAAA") := by
  have h := c5_kind_mismatch_second_pass "spotify:album:AAAAAAAAAAAAAAAAAAAAAA"
      (some "album") "AAAAAAAAAAAAAAAAAAAAAA" (by decide) (by decide)
  exact ⟨(h.1 (by decide)).trans (by rfl), (h.2 (by decide)).trans (by rfl)⟩

/-- C8 counterexample: with the store connection unavailable, the empty
input still yields HTTP 400 "Could not parse track id" — not the claimed
HTTP 500 "DB unavailable" — because the parse check runs before the
connection is attempted. -/
theorem c8_counterexample :
    api_blacklist_track envNoDb (some "") db0
        = (.resp (errResp 400 "Could not parse track id"), db0)
    ∧ (errResp 400 "Could not parse track id").status ≠ 500
    ∧ (errResp 400 "Could not parse track id").error ≠ some "DB unavailable" := by
  refine ⟨rfl, by decide, by decide⟩

/-- C8 amended: when the store connection cannot be obtained, every request
whose input resolves (after correction) to a truthy id gets HTTP 500 with
error `DB unavailable` and no table changes; unresolvable input is rejected
with 400 before the connection is attempted. -/
theorem c8_db_unavailable (env : Env) (inp1 inp2 inp3 : Option String)
    (b : Option Bool) (db : Db) (t1 p2 c3 : Option String)
    (hconn : env.connAvailable = false)
    (h1 : resolved_track_id inp1 = .ok t1) (h1t : pyTruthy t1 = true)
    (h2 : resolved_playlist_id inp2 = .ok p2) (h2t : pyTruthy p2 = true)
    (h3 : whitelist_candidate env.sp inp3 = .ok c3) (h3t : pyTruthy c3 = true) :
    api_blacklist_track env inp1 db = (.resp (errResp 500 "DB unavailable"), db)
    ∧ api_blacklist_playlist env inp2 b db
        = (.resp (errResp 500 "DB unavailable"), db)
    ∧ api_whitelist_profile env inp3 db
        = (.resp (errResp 500 "DB unavailable"), db) := by
  refine ⟨?_, ?_, ?_⟩
  · unfold api_blacklist_track
    rw [h1]
    simp [h1t, hconn]
  · unfold api_blacklist_playlist
    rw [h2]
    simp [h2t, hconn]
  · unfold api_whitelist_profile
    rw [h3]
    simp [h3t, hconn]

/-- Witness for C8 on a plain resolvable input with the store down. -/
theorem c8_db_unavailable_witness :
    api_blacklist_track envNoDb (some "abcdef") db0
        = (.resp (errResp 500 "DB unavailable"), db0)
    ∧ api_blacklist_playlist envNoDb (some "abcdef") none db0
        = (.resp (errResp 500 "DB unavailable"), db0)
    ∧ api_whitelist_profile envNoDb (some "abcdef") db0
        = (.resp (errResp 500 "DB unavailable"), db0) :=
  c8_db_unavailable envNoDb (some "abcdef") (some "abcdef") (some "abcdef")
    none db0 (some "abcdef") (some "abcdef") (some "abcdef")
    rfl rfl (by decide) rfl (by decide) rfl (by decide)

/-- A stub Spotify client that resolves one playlist to one owner. -/
def spStub : SpClient :=
  { track := fun _ => none,
    playlist := fun pid =>
      if pid = "PLAYLISTAAAAAAAAAAAAAA" then
        some { name := none, owner_id := some "OWNERPROFILE0000000000" }
      else none }

/-- Environment with the stub client and a working database. -/
def envSp : Env :=
  { sp := some spStub, connAvailable := true, writeOk := true,
    writeErr := "", now := 5 }

/-- C9: when the whitelist input resolves to a playlist and the enricher
resolves that playlist to a truthy owner profile id, the row written is the
owner's profile id, not the playlist id, and the request succeeds. -/
theorem c9_owner_redirect (env : Env) (input : String) (db : Db)
    (sp : SpClient) (pid p1 : String) (pl : PlaylistInfo)
    (hres : extract_id_from_input (pyStrip input) = (some "playlist", some pid))
    (hsp : env.sp = some sp)
    (hlook : sp.playlist pid = some pl)
    (howner : pl.owner_id = some p1)
    (hp1 : p1 ≠ "")
    (hconn : env.connAvailable = true) (hwr : env.writeOk = true) :
    api_whitelist_profile env (some input) db
      = (.resp (okResp ("Whitelisted profile " ++ p1)),
         { db with profiles := upsert_whitelisted_profile env.now p1 db.profiles }) := by
  have hcand : whitelist_candidate env.sp (some input) = .ok (some p1) := by
    unfold whitelist_candidate
    simp only [Option.getD_some, hres, hsp]
    simp [hlook, howner, hp1]
  unfold api_whitelist_profile
  rw [hcand]
  simp [pyTruthy_some_of_ne p1 hp1, hconn, hwr, ensure_tables]

/-- Witness for C9 with the stub client. -/
theorem c9_owner_redirect_witness :
    api_whitelist_profile envSp (some "spotify:playlist:PLAYLISTAAAAAAAAAAAAAA") db0
      = (.resp (okResp "Whitelisted profile OWNERPROFILE0000000000"),
         { db0 with profiles := [{ profile_id := "OWNERPROFILE0000000000",
                                   added_at := 5 }] }) := by
  have h := c9_owner_redirect envSp "spotify:playlist:PLAYLISTAAAAAAAAAAAAAA" db0
    spStub "PLAYLISTAAAAAAAAAAAAAA" "OWNERPROFILE0000000000"
    { name := none, owner_id := some "OWNERPROFILE0000000000" }
    (by decide) rfl (by decide) rfl (by decide) rfl rfl
  exact h.trans (by rfl)

/-- C10 (implicit): when the whitelist input resolves to a playlist (or to a
falsy kind whose id contains the 22-character pattern) but the enrichment
client is absent or the playlist lookup fails, the resolved id itself —
possibly a playlist id — is written into `whitelisted_profiles`, and the
request still succeeds with HTTP 200. -/
theorem c10_enrichment_missing_writes_resolved_id (env : Env) (input : String)
    (db : Db) (kind : Option String) (pid : String)
    (hres : extract_id_from_input (pyStrip input) = (kind, some pid))
    (hpid : pid ≠ "")
    (hkind : kind = some "playlist"
      ∨ (pyTruthy kind = false ∧ (SPOTIFY_ID_RE_search pid).isSome = true))
    (hsp : env.sp = none ∨ ∃ sp, env.sp = some sp ∧ sp.playlist pid = none)
    (hconn : env.connAvailable = true) (hwr : env.writeOk = true) :
    api_whitelist_profile env (some input) db
      = (.resp (okResp ("Whitelisted profile " ++ pid)),
         { db with profiles := upsert_whitelisted_profile env.now pid db.profiles }) := by
  have hcand : whitelist_candidate env.sp (some input) = .ok (some pid) := by
    unfold whitelist_candidate
    simp only [Option.getD_some, hres]
    rcases hkind with hk | ⟨hk1, hk2⟩
    · subst hk
      rcases hsp with h | ⟨sp, hspe, hlk⟩
      · simp [h]
      · simp [hspe, hlk]
    · have hne : kind ≠ some "playlist" := pyTruthy_false_ne kind hk1 _ (by decide)
      rcases hsp with h | ⟨sp, hspe, hlk⟩
      · simp [hne, hk1, hk2, h]
      · simp [hne, hk1, hk2, hspe, hlk]
  unfold api_whitelist_profile
  rw [hcand]
  simp [pyTruthy_some_of_ne pid hpid, hconn, hwr, ensure_tables]

/-- Witness for C10: no enrichment client, playlist URI input; the playlist
id itself is whitelisted. -/
theorem c10_enrichment_missing_witness :
    api_whitelist_profile envPlain (some "spotify:playlist:PLAYLISTAAAAAAAAAAAAAA") db0
      = (.resp (okResp "Whitelisted profile PLAYLISTAAAAAAAAAAAAAA"),
         { db0 with profiles := [{ profile_id := "PLAYLISTAAAAAAAAAAAAAA",
                                   added_at := 7 }] }) := by
  have h := c10_enrichment_missing_writes_resolved_id envPlain
    "spotify:playlist:PLAYLISTAAAAAAAAAAAAAA" db0 (some "playlist")
    "PLAYLISTAAAAAAAAAAAAAA" (by decide) (by decide) (Or.inl rfl) (Or.inl rfl)
    rfl rfl
  exact h.trans (by rfl)

end Backend
